import Mathlib

/-!
# static/javascript.js

A shallow embedding of the two page functions of `static/javascript.js`,

    function show_confirm(show) {
        document.getElementById('confirm-delete').style.display = show ? "block" : "none";
    }
    function delete_video(video_id){
        base_url=location.origin;
        target_url = base_url + '/delete_form_video/' + video_id;
        location.href = target_url;
    }

as functions on an explicit browser state (location, global variables, elements by id).
A call yields a completion (the returned value or the thrown error) and the state it leaves.
-/

namespace StaticJs

/-! ## Values -/

/-- The JavaScript primitive values the page functions are called with.  `number x` is the
Number whose exact value is the integer `x` (so `x` is a value a double represents exactly). -/
inductive JSValue where
  | undefined
  | boolean (b : Bool)
  | string (s : String)
  | number (x : Int)
  deriving DecidableEq

/-- Errors a call can throw. -/
inductive JSError where
  | TypeError
  deriving DecidableEq

/-- ECMAScript `ToBoolean`, used by the conditional operator `show ? _ : _`. -/
def ToBoolean : JSValue → Bool
  | .undefined => false
  | .boolean b => b
  | .string s => decide (s ≠ "")
  | .number x => decide (x ≠ 0)

/-- Number of binary digits of `m` (0 for 0); the first argument bounds the recursion and
any value of at least `m` is enough. -/
def bitLength : Nat → Nat → Nat
  | 0, _ => 0
  | fuel + 1, m => if m = 0 then 0 else bitLength fuel (m / 2) + 1

/-- The double nearest to a natural number (round to nearest, ties to even): the 53 leading
bits are kept.  A result of `2 ^ 1024` or more stands for `Infinity`. -/
def roundToDouble (m : Nat) : Nat :=
  let b := bitLength m m
  if b ≤ 53 then m
  else
    let e := b - 53
    let q := m / 2 ^ e
    let r := m % 2 ^ e
    let half := 2 ^ (e - 1)
    if half < r ∨ (r = half ∧ q % 2 = 1) then (q + 1) * 2 ^ e else q * 2 ^ e

/-- Among the multiples of `p` (decimal values with a fixed number of trailing zeros), the
one closest to `x` that still denotes the Number `x`, if there is one; of two equally close
ones, the one with the even digit string.  Only the two multiples around `x` can be closest. -/
def closest (x p : Nat) : Option Nat :=
  let lo := x / p * p
  let hi := lo + p
  match decide (roundToDouble lo = x), decide (roundToDouble hi = x) with
  | true, true =>
    if x - lo < hi - x then some lo
    else if hi - x < x - lo then some hi
    else if (x / p) % 2 = 0 then some lo else some hi
  | true, false => some lo
  | false, true => some hi
  | false, false => none

/-- Step 5 of ECMAScript `Number::toString`: the decimal value `s × 10 ^ (n - k)` with the
fewest significant digits `k` that denotes the Number `x`.  The search goes from the most
trailing zeros `e = n - k` down to none, where `x` itself is the answer. -/
def shortest (x : Nat) : Nat → Nat
  | 0 => x
  | e + 1 =>
    match closest x (10 ^ (e + 1)) with
    | some v => v
    | none => shortest x e

/-- Exponent form of `Number::toString` (used when there are more than 21 integer digits):
the significant digits, a point after the first when there are several, `e+` and `n - 1`. -/
def exponentForm (v : Nat) : String :=
  let ds := Nat.toDigits 10 v
  match (ds.reverse.dropWhile (fun c => c == '0')).reverse with
  | [] => "0"
  | [c] => String.mk [c] ++ "e+" ++ Nat.repr (ds.length - 1)
  | c :: rest => String.mk (c :: '.' :: rest) ++ "e+" ++ Nat.repr (ds.length - 1)

/-- ECMAScript `Number::toString` (radix 10) on an integer-valued Number: the shortest
decimal that denotes it, written out in full up to 21 digits and in exponent form beyond,
with a leading minus sign for a negative value. -/
def NumberToString (x : Int) : String :=
  let a := x.natAbs
  let v := shortest a (Nat.toDigits 10 a).length
  let body := if v < 10 ^ 21 then Nat.repr v else exponentForm v
  if x < 0 then "-" ++ body else body

/-- ECMAScript `ToString`, applied by `+` to the right operand of a string concatenation. -/
def ToString : JSValue → String
  | .undefined => "undefined"
  | .boolean b => if b then "true" else "false"
  | .string s => s
  | .number x => NumberToString x

/-! ## Browser state -/

/-- An element of the page: its inline style (CSS property to value, the empty string when
the property is not set) and its other attributes. -/
structure Element where
  style : String → String
  attributes : String → Option String

/-- The `location` object: the origin of the page and `href`, the value last assigned to
`location.href`, which the browser takes as the address to send the browsing context to. -/
structure Location where
  origin : String
  href : String
  deriving DecidableEq

/-- The state the page functions act on: `location`, the properties of the global object
(the global variables of the page) and the elements of the document by id, which is what
`document.getElementById` consults. -/
structure State where
  location : Location
  globals : String → Option JSValue
  elements : String → Option Element

/-- Outcome of a call: the returned value or the thrown error, and the state left behind. -/
structure Result where
  completion : Except JSError JSValue
  state : State

/-- Assignment to an undeclared name in a classic (non-strict) script: it sets the property
of that name on the global object. -/
def State.setGlobal (st : State) (name : String) (v : JSValue) : State :=
  { st with globals := Function.update st.globals name (some v) }

/-- Assignment to a property of an element's `style`. -/
def Element.setStyle (el : Element) (property value : String) : Element :=
  { el with style := Function.update el.style property value }

/-- The document with the element of the given id replaced. -/
def State.setElement (st : State) (id : String) (el : Element) : State :=
  { st with elements := Function.update st.elements id (some el) }

/-! ## The page functions -/

/-- The function `show_confirm(show)`.  The target of the assignment,
`document.getElementById('confirm-delete').style`, is evaluated first: when no element has
the id, `getElementById` gives `null` and reading `.style` throws a `TypeError`.  Otherwise
`display` is set in that element's style.  There is no `return`, so the call yields
`undefined`. -/
def show_confirm (show_ : JSValue) (st : State) : Result :=
  match st.elements "confirm-delete" with
  | none => ⟨.error .TypeError, st⟩
  | some el =>
    let display := if ToBoolean show_ then "block" else "none"
    ⟨.ok .undefined, st.setElement "confirm-delete" (el.setStyle "display" display)⟩

/-- The function `delete_video(video_id)`.  `base_url` and `target_url` are not declared, so
both assignments write global variables.  `location.origin` and the literal are strings, so
each `+` is a string concatenation, the second one after `ToString` of `video_id`.  There is
no `return`, so the call yields `undefined`. -/
def delete_video (video_id : JSValue) (st : State) : Result :=
  let base_url := st.location.origin
  let st := st.setGlobal "base_url" (.string base_url)
  let target_url := base_url ++ "/delete_form_video/" ++ ToString video_id
  let st := st.setGlobal "target_url" (.string target_url)
  ⟨.ok .undefined, { st with location := { st.location with href := target_url } }⟩

/-! ## The address an assignment to `location.href` leads to

`location.href = target_url` hands the string to the URL parser of the browser (URL
Standard) and navigates to the URL that comes out.  The part of the parser that acts on
what follows the origin is embedded here: the input clean-up, and the path, query and
fragment states for a special scheme (`http`, `https`) in a UTF-8 document. -/

/-- UTF-8 bytes of a code point. -/
def utf8Bytes (c : Char) : List Nat :=
  let n := c.toNat
  if n < 0x80 then [n]
  else if n < 0x800 then [0xC0 + n / 64, 0x80 + n % 64]
  else if n < 0x10000 then [0xE0 + n / 4096, 0x80 + n / 64 % 64, 0x80 + n % 64]
  else [0xF0 + n / 262144, 0x80 + n / 4096 % 64, 0x80 + n / 64 % 64, 0x80 + n % 64]

/-- Upper-case hexadecimal digit. -/
def hexDigit (n : Nat) : Char :=
  if n < 10 then Char.ofNat (48 + n) else Char.ofNat (55 + n)

/-- Percent-encoding of a byte: `%` and two upper-case hexadecimal digits. -/
def percentEncodeByte (b : Nat) : List Char :=
  ['%', hexDigit (b / 16), hexDigit (b % 16)]

/-- C0 control percent-encode set: the C0 controls and every code point above `~`. -/
def inC0ControlSet (c : Char) : Bool :=
  decide (c.toNat ≤ 0x1F) || decide (0x7E < c.toNat)

/-- Fragment percent-encode set: adds space, double quote, less-than, greater-than and the
grave accent. -/
def inFragmentSet (c : Char) : Bool :=
  inC0ControlSet c || [0x20, 0x22, 0x3C, 0x3E, 0x60].contains c.toNat

/-- Query percent-encode set: the C0 control set with space, double quote, number sign,
less-than and greater-than. -/
def inQuerySet (c : Char) : Bool :=
  inC0ControlSet c || [0x20, 0x22, 0x23, 0x3C, 0x3E].contains c.toNat

/-- Special-query percent-encode set, used for `http` and `https`: adds the apostrophe. -/
def inSpecialQuerySet (c : Char) : Bool :=
  inQuerySet c || decide (c.toNat = 0x27)

/-- Path percent-encode set: the query set with question mark, circumflex, grave accent and
the two curly brackets. -/
def inPathSet (c : Char) : Bool :=
  inQuerySet c || [0x3F, 0x5E, 0x60, 0x7B, 0x7D].contains c.toNat

/-- UTF-8 percent-encode a code point using a percent-encode set. -/
def utf8PercentEncode (inSet : Char → Bool) (c : Char) : List Char :=
  if inSet c then (utf8Bytes c).flatMap percentEncodeByte else [c]

/-- A single-dot URL path segment: `.` or `%2e` in either case. -/
def isSingleDot (buffer : List Char) : Bool :=
  decide (buffer.map Char.toLower ∈ [['.'], ['%', '2', 'e']])

/-- A double-dot URL path segment: `..` with either dot possibly written `%2e`. -/
def isDoubleDot (buffer : List Char) : Bool :=
  decide (buffer.map Char.toLower ∈
    [['.', '.'], ['.', '%', '2', 'e'], ['%', '2', 'e', '.'], ['%', '2', 'e', '%', '2', 'e']])

/-- What the path state does with the buffer when a segment ends; `slash` tells whether it
ended at a slash (or backslash) rather than at `?`, `#` or the end of the input. -/
def endSegment (path : List String) (buffer : List Char) (slash : Bool) : List String :=
  if isDoubleDot buffer then
    if slash then path.dropLast else path.dropLast ++ [""]
  else if isSingleDot buffer then
    if slash then path else path ++ [""]
  else path ++ [String.mk buffer]

/-- Path, query and fragment of a parsed URL. -/
structure URLTail where
  path : List String
  query : Option String
  fragment : Option String
  deriving DecidableEq

/-- Fragment state: every code point is percent-encoded with the fragment set. -/
def fragmentState (cs : List Char) : String :=
  String.mk (cs.flatMap (utf8PercentEncode inFragmentSet))

/-- Query state: the query runs to the first `#` and is percent-encoded with the
special-query set; the fragment follows. -/
def queryState (cs : List Char) : String × Option String :=
  let query := (cs.takeWhile (fun c => c != '#')).flatMap (utf8PercentEncode inSpecialQuerySet)
  match cs.dropWhile (fun c => c != '#') with
  | [] => (String.mk query, none)
  | _ :: rest => (String.mk query, some (fragmentState rest))

/-- Path state for a special scheme: a slash or backslash ends a segment, `?` and `#` end
the path, any other code point is percent-encoded with the path set into the buffer. -/
def pathState (path : List String) (buffer : List Char) : List Char → URLTail
  | [] => ⟨endSegment path buffer false, none, none⟩
  | c :: cs =>
    if c = '/' ∨ c.toNat = 0x5C then pathState (endSegment path buffer true) [] cs
    else if c = '?' then ⟨endSegment path buffer false, some (queryState cs).1, (queryState cs).2⟩
    else if c = '#' then ⟨endSegment path buffer false, none, some (fragmentState cs)⟩
    else pathState path (buffer ++ utf8PercentEncode inPathSet c) cs

/-- URL serializer on the path, query and fragment. -/
def URLTail.serialize (t : URLTail) : String :=
  String.join (t.path.map (fun segment => "/" ++ segment))
    ++ (match t.query with | some q => "?" ++ q | none => "")
    ++ (match t.fragment with | some f => "#" ++ f | none => "")

/-- Input clean-up of the URL parser: leading and trailing C0 controls and spaces are
removed, then every tab and newline. -/
def cleanInput (input : List Char) : List Char :=
  let isC0OrSpace := fun (c : Char) => decide (c.toNat ≤ 0x20)
  let trimmed := ((input.dropWhile isC0OrSpace).reverse.dropWhile isC0OrSpace).reverse
  trimmed.filter (fun c => !(c.toNat = 0x09 || c.toNat = 0x0A || c.toNat = 0x0D))

/-- The input that remains after a leading sequence of code points, if it starts with it. -/
def after : List Char → List Char → Option (List Char)
  | [], cs => some cs
  | _ :: _, [] => none
  | o :: os, c :: cs => if o = c then after os cs else none

/-- The URL the browser navigates to when `input` is assigned to `location.href` on a page
of the given origin, for the inputs this file is concerned with: `origin` is the serialized
origin of an `http` or `https` page and `input` is that origin followed by a slash and
anything.  Scheme, host and port are parsed back as the origin; the rest goes through the
path state.  The result is `none` for any other input, which lies outside this embedding. -/
def resolveHref (origin input : String) : Option String :=
  if (after "http://".data origin.data).isSome ∨ (after "https://".data origin.data).isSome then
    match after origin.data (cleanInput input.data) with
    | some ('/' :: rest) => some (origin ++ (pathState [] [] rest).serialize)
    | _ => none
  else none

/-! ## Sample pages -/

/-- A confirmation panel that is currently hidden. -/
def panel : Element where
  style := fun p => if p = "display" then "none" else ""
  attributes := fun a => if a = "id" then some "confirm-delete" else none

/-- A page served from `https://example.com` that contains the confirmation panel. -/
def page : State where
  location := ⟨"https://example.com", "https://example.com/videos"⟩
  globals := fun _ => none
  elements := fun i => if i = "confirm-delete" then some panel else none

/-- The same page without the confirmation panel. -/
def barePage : State where
  location := ⟨"https://example.com", "https://example.com/videos"⟩
  globals := fun _ => none
  elements := fun _ => none

/-! ## Number rendering on the safe integers -/

theorem pow_bitLength_le (fuel m : Nat) (h : 0 < bitLength fuel m) :
    2 ^ (bitLength fuel m - 1) ≤ m := by
  induction fuel generalizing m with
  | zero => simp [bitLength] at h
  | succ f ih =>
    unfold bitLength at h ⊢
    by_cases hm : m = 0
    · simp [hm] at h
    · simp only [hm, if_false, Nat.add_sub_cancel]
      by_cases hz : bitLength f (m / 2) = 0
      · rw [hz]; simp; omega
      · have h2 := ih (m / 2) (Nat.pos_of_ne_zero hz)
        have h3 : bitLength f (m / 2) = (bitLength f (m / 2) - 1) + 1 := by omega
        rw [h3, pow_succ]
        omega

theorem le_roundToDouble (m : Nat) (h : 53 < bitLength m m) : 2 ^ 53 ≤ roundToDouble m := by
  have hb := pow_bitLength_le m m (by omega)
  have he : bitLength m m - 1 = 52 + (bitLength m m - 53) := by omega
  rw [he, pow_add] at hb
  have hpos : 0 < 2 ^ (bitLength m m - 53) := by positivity
  have hq : 2 ^ 52 ≤ m / 2 ^ (bitLength m m - 53) := (Nat.le_div_iff_mul_le hpos).2 hb
  have h2 : 2 ≤ 2 ^ (bitLength m m - 53) := by
    have h1 : bitLength m m - 53 = (bitLength m m - 54) + 1 := by omega
    rw [h1, pow_succ]
    have : 0 < 2 ^ (bitLength m m - 54) := by positivity
    omega
  have hlow : 2 ^ 53 ≤ m / 2 ^ (bitLength m m - 53) * 2 ^ (bitLength m m - 53) := by
    calc 2 ^ 53 = 2 ^ 52 * 2 := by norm_num
      _ ≤ m / 2 ^ (bitLength m m - 53) * 2 ^ (bitLength m m - 53) := Nat.mul_le_mul hq h2
  unfold roundToDouble
  simp only [Nat.not_le.2 h, if_false]
  split
  · calc 2 ^ 53 ≤ m / 2 ^ (bitLength m m - 53) * 2 ^ (bitLength m m - 53) := hlow
      _ ≤ (m / 2 ^ (bitLength m m - 53) + 1) * 2 ^ (bitLength m m - 53) :=
          Nat.mul_le_mul_right _ (Nat.le_succ _)
  · exact hlow

theorem roundToDouble_safe (v a : Nat) (ha : a < 2 ^ 53) (h : roundToDouble v = a) : v = a := by
  by_cases hb : bitLength v v ≤ 53
  · simpa [roundToDouble, hb] using h
  · have := le_roundToDouble v (by omega)
    omega

theorem closest_safe (a p v : Nat) (ha : a < 2 ^ 53) (h : closest a p = some v) : v = a := by
  unfold closest at h
  simp only at h
  split at h
  · rename_i h1 h2
    have e1 := roundToDouble_safe _ a ha (of_decide_eq_true h1)
    have e2 := roundToDouble_safe _ a ha (of_decide_eq_true h2)
    split at h
    · cases h; exact e1
    · split at h
      · cases h; exact e2
      · split at h
        · cases h; exact e1
        · cases h; exact e2
  · rename_i h1 _
    cases h; exact roundToDouble_safe _ a ha (of_decide_eq_true h1)
  · rename_i _ h2
    cases h; exact roundToDouble_safe _ a ha (of_decide_eq_true h2)
  · cases h

theorem shortest_safe (a e : Nat) (ha : a < 2 ^ 53) : shortest a e = a := by
  induction e with
  | zero => rfl
  | succ e ih =>
    unfold shortest
    split
    · rename_i v hv; exact closest_safe a _ v ha hv
    · exact ih

theorem NumberToString_safe (n : Int) (hn : n.natAbs < 2 ^ 53) : NumberToString n = toString n := by
  unfold NumberToString
  simp only [shortest_safe _ _ hn]
  have h21 : n.natAbs < 10 ^ 21 := by
    have : (2 : Nat) ^ 53 < 10 ^ 21 := by norm_num
    omega
  simp only [h21, if_true]
  cases n with
  | ofNat m => simp [toString]
  | negSucc m => simp [toString, Int.negSucc_lt_zero]

/-! ## Lemmas on strings -/

theorem append_left_cancel (s a b : String) (h : s ++ a = s ++ b) : a = b := by
  have hd := congrArg String.data h
  simp only [String.data_append] at hd
  exact String.ext (List.append_cancel_left hd)

/-! ## The visibility toggle -/

/-- C3: on a page that has the element with id confirm-delete, after show_confirm(show) the
style.display of that element is "block" when show is true and "none" when show is false,
and it is never anything else. -/
theorem show_confirm_display (b : Bool) (st : State) (el : Element)
    (h : st.elements "confirm-delete" = some el) :
    ∃ el', (show_confirm (.boolean b) st).state.elements "confirm-delete" = some el' ∧
      (b = true → el'.style "display" = "block") ∧
      (b = false → el'.style "display" = "none") ∧
      (el'.style "display" = "block" ∨ el'.style "display" = "none") := by
  refine ⟨el.setStyle "display" (if b then "block" else "none"), ?_, ?_, ?_, ?_⟩
  · simp [show_confirm, h, ToBoolean, State.setElement]
  · intro hb; simp [hb, Element.setStyle]
  · intro hb; simp [hb, Element.setStyle]
  · cases b <;> simp [Element.setStyle]

/-- C3 on the sample page, showing the panel. -/
theorem show_confirm_display_witness :
    page.elements "confirm-delete" = some panel ∧
    ∃ el', (show_confirm (.boolean true) page).state.elements "confirm-delete" = some el' ∧
      (true = true → el'.style "display" = "block") ∧
      (true = false → el'.style "display" = "none") ∧
      (el'.style "display" = "block" ∨ el'.style "display" = "none") :=
  ⟨rfl, show_confirm_display true page panel rfl⟩

/-- C4: show_confirm is idempotent: on a page that has the element with id confirm-delete,
calling show_confirm(show) on the state left by show_confirm(show) gives the same outcome
and the same state as the single call. -/
theorem show_confirm_idempotent (b : Bool) (st : State) (el : Element)
    (h : st.elements "confirm-delete" = some el) :
    (show_confirm (.boolean b) (show_confirm (.boolean b) st).state).state
        = (show_confirm (.boolean b) st).state ∧
    (show_confirm (.boolean b) (show_confirm (.boolean b) st).state).completion
        = (show_confirm (.boolean b) st).completion := by
  simp [show_confirm, h, State.setElement, Element.setStyle]

/-- C4 on the sample page, showing the panel twice. -/
theorem show_confirm_idempotent_witness :
    page.elements "confirm-delete" = some panel ∧
    (show_confirm (.boolean true) (show_confirm (.boolean true) page).state).state
        = (show_confirm (.boolean true) page).state ∧
    (show_confirm (.boolean true) (show_confirm (.boolean true) page).state).completion
        = (show_confirm (.boolean true) page).completion :=
  ⟨rfl, show_confirm_idempotent true page panel rfl⟩

/-- C5: the last call wins: on a page that has the element with id confirm-delete, the state
after show_confirm(a) followed by show_confirm(b) is the state after show_confirm(b) alone,
and the state after show_confirm(b) is the same whatever display value the element had
before. -/
theorem show_confirm_last_wins (a b : Bool) (st : State) (el : Element) (d : String)
    (h : st.elements "confirm-delete" = some el) :
    (show_confirm (.boolean b) (show_confirm (.boolean a) st).state).state
        = (show_confirm (.boolean b) st).state ∧
    (show_confirm (.boolean b)
        (st.setElement "confirm-delete" (el.setStyle "display" d))).state
        = (show_confirm (.boolean b) st).state := by
  simp [show_confirm, h, State.setElement, Element.setStyle]

/-- C5 on the sample page: show, then hide. -/
theorem show_confirm_last_wins_witness :
    page.elements "confirm-delete" = some panel ∧
    (show_confirm (.boolean false) (show_confirm (.boolean true) page).state).state
        = (show_confirm (.boolean false) page).state ∧
    (show_confirm (.boolean false)
        (page.setElement "confirm-delete" (panel.setStyle "display" "inline"))).state
        = (show_confirm (.boolean false) page).state :=
  ⟨rfl, show_confirm_last_wins true false page panel "inline" rfl⟩

/-- C7: on a page that has the element with id confirm-delete, show_confirm(show) completes
normally with the value undefined; it throws no error. -/
theorem show_confirm_returns (b : Bool) (st : State) (el : Element)
    (h : st.elements "confirm-delete" = some el) :
    (show_confirm (.boolean b) st).completion = .ok .undefined ∧
    ∀ e, (show_confirm (.boolean b) st).completion ≠ .error e := by
  simp [show_confirm, h]

/-- C7 on the sample page, hiding the panel. -/
theorem show_confirm_returns_witness :
    page.elements "confirm-delete" = some panel ∧
    (show_confirm (.boolean false) page).completion = .ok .undefined ∧
    ∀ e, (show_confirm (.boolean false) page).completion ≠ .error e :=
  ⟨rfl, show_confirm_returns false page panel rfl⟩

/-- C8: frame of show_confirm: on a page that has the element with id confirm-delete, the
call leaves the location (origin and href) and the global variables as they were, leaves
every other element as it was, and on the element itself changes no style property other
than display and no other attribute. -/
theorem show_confirm_frame (b : Bool) (st : State) (el : Element)
    (h : st.elements "confirm-delete" = some el) :
    (show_confirm (.boolean b) st).state.location = st.location ∧
    (show_confirm (.boolean b) st).state.globals = st.globals ∧
    (∀ i, i ≠ "confirm-delete" →
      (show_confirm (.boolean b) st).state.elements i = st.elements i) ∧
    ∃ el', (show_confirm (.boolean b) st).state.elements "confirm-delete" = some el' ∧
      (∀ p, p ≠ "display" → el'.style p = el.style p) ∧
      el'.attributes = el.attributes := by
  refine ⟨by simp [show_confirm, h, State.setElement],
    by simp [show_confirm, h, State.setElement], ?_, ?_⟩
  · intro i hi
    simp [show_confirm, h, State.setElement, Function.update_noteq hi]
  · refine ⟨el.setStyle "display" (if b then "block" else "none"),
      by simp [show_confirm, h, ToBoolean, State.setElement], ?_, rfl⟩
    intro p hp
    simp [Element.setStyle, Function.update_noteq hp]

/-- C8 on the sample page, showing the panel. -/
theorem show_confirm_frame_witness :
    page.elements "confirm-delete" = some panel ∧
    (show_confirm (.boolean true) page).state.location = page.location ∧
    (show_confirm (.boolean true) page).state.globals = page.globals ∧
    (∀ i, i ≠ "confirm-delete" →
      (show_confirm (.boolean true) page).state.elements i = page.elements i) ∧
    ∃ el', (show_confirm (.boolean true) page).state.elements "confirm-delete" = some el' ∧
      (∀ p, p ≠ "display" → el'.style p = panel.style p) ∧
      el'.attributes = panel.attributes :=
  ⟨rfl, show_confirm_frame true page panel rfl⟩

/-- C9: on a page that has no element with id confirm-delete, show_confirm(show) throws (a
TypeError, from reading style of null) and leaves the whole state as it was; and on any
page, show_confirm(show) throws exactly when the element is absent. -/
theorem show_confirm_missing (b : Bool) (st : State) :
    (st.elements "confirm-delete" = none →
      (show_confirm (.boolean b) st).completion = .error .TypeError ∧
      (show_confirm (.boolean b) st).state = st) ∧
    ((∃ e, (show_confirm (.boolean b) st).completion = .error e) ↔
      st.elements "confirm-delete" = none) := by
  constructor
  · intro h
    simp [show_confirm, h]
  · cases h : st.elements "confirm-delete" with
    | none => simpa [show_confirm, h] using ⟨JSError.TypeError, trivial⟩
    | some el => simp [show_confirm, h]

/-- C9 on the sample page without the panel. -/
theorem show_confirm_missing_witness :
    barePage.elements "confirm-delete" = none ∧
    (show_confirm (.boolean true) barePage).completion = .error .TypeError ∧
    (show_confirm (.boolean true) barePage).state = barePage :=
  ⟨rfl, (show_confirm_missing true barePage).1 rfl⟩

/-! ## The navigation trigger -/

/-- C1: for every origin o and identifier string id, delete_video(id) sets location.href to
o followed by /delete_form_video/ followed by id; the target begins with o; and for the
origin https://example.com and the identifier 42 it is
https://example.com/delete_form_video/42. -/
theorem delete_video_target (o id : String) (st : State) (h : st.location.origin = o) :
    (delete_video (.string id) st).state.location.href = o ++ "/delete_form_video/" ++ id ∧
    o.data <+: (delete_video (.string id) st).state.location.href.data ∧
    (o = "https://example.com" → id = "42" →
      (delete_video (.string id) st).state.location.href
        = "https://example.com/delete_form_video/42") := by
  have href : (delete_video (.string id) st).state.location.href
      = o ++ "/delete_form_video/" ++ id := by
    simp [delete_video, ToString, h]
  refine ⟨href, ?_, ?_⟩
  · rw [href]
    simp only [String.data_append, List.append_assoc]
    exact List.prefix_append _ _
  · intro ho hid
    rw [href, ho, hid]
    rfl

/-- C1 on the sample page with the identifier 42. -/
theorem delete_video_target_witness :
    page.location.origin = "https://example.com" ∧
    (delete_video (.string "42") page).state.location.href
      = "https://example.com" ++ "/delete_form_video/" ++ "42" ∧
    "https://example.com".data <+: (delete_video (.string "42") page).state.location.href.data ∧
    ("https://example.com" = "https://example.com" → "42" = "42" →
      (delete_video (.string "42") page).state.location.href
        = "https://example.com/delete_form_video/42") :=
  ⟨rfl, delete_video_target "https://example.com" "42" page rfl⟩

/-- C2, as stated, fails: on the sample page, where no global variable is set,
delete_video("42") leaves the global variables base_url and target_url set. -/
theorem delete_video_sets_globals :
    page.globals "base_url" = none ∧
    (delete_video (.string "42") page).state.globals "base_url"
      = some (.string "https://example.com") ∧
    page.globals "target_url" = none ∧
    (delete_video (.string "42") page).state.globals "target_url"
      = some (.string "https://example.com/delete_form_video/42") ∧
    (delete_video (.string "42") page).state.globals ≠ page.globals := by
  refine ⟨rfl, by decide, rfl, by decide, ?_⟩
  intro h
  have h2 := congrFun h "base_url"
  revert h2
  decide

/-- C2, amended: delete_video(id) changes location.href and the two global variables
base_url and target_url, which it sets to the origin and to the target address, and nothing
else: every other global variable, location.origin and every element of the document are as
they were before the call. -/
theorem delete_video_frame (video_id : JSValue) (st : State) (g : String)
    (hb : g ≠ "base_url") (ht : g ≠ "target_url") :
    (delete_video video_id st).state.globals g = st.globals g ∧
    (delete_video video_id st).state.elements = st.elements ∧
    (delete_video video_id st).state.location.origin = st.location.origin ∧
    (delete_video video_id st).state.globals "base_url" = some (.string st.location.origin) ∧
    (delete_video video_id st).state.globals "target_url"
      = some (.string (delete_video video_id st).state.location.href) := by
  refine ⟨?_, rfl, rfl, ?_, ?_⟩
  · simp [delete_video, State.setGlobal, Function.update_noteq hb, Function.update_noteq ht]
  · have hne : ("base_url" : String) ≠ "target_url" := by decide
    simp [delete_video, State.setGlobal, Function.update_noteq hne]
  · simp [delete_video, State.setGlobal]

/-- C2, amended, on the sample page for a global variable page_title. -/
theorem delete_video_frame_witness :
    ("page_title" : String) ≠ "base_url" ∧ ("page_title" : String) ≠ "target_url" ∧
    (delete_video (.string "42") page).state.globals "page_title" = page.globals "page_title" ∧
    (delete_video (.string "42") page).state.elements = page.elements ∧
    (delete_video (.string "42") page).state.location.origin = page.location.origin ∧
    (delete_video (.string "42") page).state.globals "base_url"
      = some (.string page.location.origin) ∧
    (delete_video (.string "42") page).state.globals "target_url"
      = some (.string (delete_video (.string "42") page).state.location.href) :=
  ⟨by decide, by decide,
    delete_video_frame (.string "42") page "page_title" (by decide) (by decide)⟩

/-- C6, as stated, fails for large integers: the Number 10 ^ 21 (which a double represents
exactly) is appended as 1e+21, not as its decimal numeral 1000000000000000000000. -/
theorem delete_video_large_integer :
    roundToDouble (10 ^ 21) = 10 ^ 21 ∧
    (delete_video (.number (10 ^ 21)) page).state.location.href
      = "https://example.com/delete_form_video/1e+21" ∧
    (delete_video (.number (10 ^ 21)) page).state.location.href
      ≠ "https://example.com" ++ "/delete_form_video/" ++ toString ((10 : Int) ^ 21) := by
  refine ⟨by decide, by decide, by decide⟩

/-- C6, amended: delete_video never rejects its argument (the call completes normally for
every value); for a string identifier the text appended after /delete_form_video/ is the
identifier itself, character for character, nothing escaped or encoded; and for an integer n
in the safe range, below 2 ^ 53 in absolute value, it is the decimal numeral of n, so that
delete_video(n) and delete_video of that numeral as a string give the same target. -/
theorem delete_video_passthrough (video_id : JSValue) (id : String) (n : Int) (st : State)
    (hn : n.natAbs < 2 ^ 53) :
    (delete_video video_id st).completion = .ok .undefined ∧
    (delete_video (.string id) st).state.location.href
      = st.location.origin ++ "/delete_form_video/" ++ id ∧
    (delete_video (.number n) st).state.location.href
      = st.location.origin ++ "/delete_form_video/" ++ toString n ∧
    (delete_video (.number n) st).state.location.href
      = (delete_video (.string (toString n)) st).state.location.href := by
  refine ⟨rfl, rfl, ?_, ?_⟩
  · simp [delete_video, ToString, NumberToString_safe n hn]
  · simp [delete_video, ToString, NumberToString_safe n hn]

/-- C6, amended, on the sample page: an identifier with reserved characters and the integer 42. -/
theorem delete_video_passthrough_witness :
    (42 : Int).natAbs < 2 ^ 53 ∧
    (delete_video (.string "") page).completion = .ok .undefined ∧
    (delete_video (.string "a b/c?d#e%20") page).state.location.href
      = page.location.origin ++ "/delete_form_video/" ++ "a b/c?d#e%20" ∧
    (delete_video (.number 42) page).state.location.href
      = page.location.origin ++ "/delete_form_video/" ++ toString (42 : Int) ∧
    (delete_video (.number 42) page).state.location.href
      = (delete_video (.string (toString (42 : Int))) page).state.location.href :=
  ⟨by decide, delete_video_passthrough (.string "") "a b/c?d#e%20" 42 page (by decide)⟩

/-- C10, as stated, fails: distinct identifiers can be sent to the same deletion URL.  On the
sample page the identifiers "a b" and "a%20b" give different strings to location.href, and
the browser resolves both to https://example.com/delete_form_video/a%20b; likewise "42#a b"
and "42#a%20b". -/
theorem delete_video_same_address :
    ("a b" : String) ≠ "a%20b" ∧
    (delete_video (.string "a b") page).state.location.href
      ≠ (delete_video (.string "a%20b") page).state.location.href ∧
    resolveHref page.location.origin (delete_video (.string "a b") page).state.location.href
      = some "https://example.com/delete_form_video/a%20b" ∧
    resolveHref page.location.origin (delete_video (.string "a%20b") page).state.location.href
      = some "https://example.com/delete_form_video/a%20b" ∧
    ("42#a b" : String) ≠ "42#a%20b" ∧
    resolveHref page.location.origin (delete_video (.string "42#a b") page).state.location.href
      = resolveHref page.location.origin
          (delete_video (.string "42#a%20b") page).state.location.href := by
  refine ⟨by decide, by decide, by decide, by decide, by decide, by decide⟩

/-- C10, amended: for a fixed origin, the target string computed by delete_video (the value
it assigns to target_url and to location.href) determines the string identifier: equal
target strings come from equal identifiers, so distinct identifiers get distinct target
strings. -/
theorem delete_video_injective (o id1 id2 : String) (st1 st2 : State)
    (h1 : st1.location.origin = o) (h2 : st2.location.origin = o) :
    ((delete_video (.string id1) st1).state.location.href
        = (delete_video (.string id2) st2).state.location.href → id1 = id2) ∧
    (id1 ≠ id2 → (delete_video (.string id1) st1).state.location.href
        ≠ (delete_video (.string id2) st2).state.location.href) := by
  have key : (delete_video (.string id1) st1).state.location.href
        = (delete_video (.string id2) st2).state.location.href → id1 = id2 := by
    intro h
    simp only [delete_video, ToString, h1, h2] at h
    exact append_left_cancel _ _ _ h
  exact ⟨key, fun hne h => hne (key h)⟩

/-- C10, amended, for the identifiers 41 and 42. -/
theorem delete_video_injective_witness :
    page.location.origin = "https://example.com" ∧
    barePage.location.origin = "https://example.com" ∧
    ((delete_video (.string "41") page).state.location.href
        = (delete_video (.string "42") barePage).state.location.href → "41" = "42") ∧
    (("41" : String) ≠ "42" → (delete_video (.string "41") page).state.location.href
        ≠ (delete_video (.string "42") barePage).state.location.href) :=
  ⟨rfl, rfl, delete_video_injective "https://example.com" "41" "42" page barePage rfl rfl⟩

end StaticJs
